import Mathlib

/-!
Verification of the cache-aside layer of the property-listing repository.

The Python modules `properties/utils.py`, `properties/signals.py` and
`properties/models.py` are shallowly embedded below: the Django cache is an
association list of keyed lines with a TTL, the relational store is a list of
`Property` records, and fallible Python code is embedded in `Except PyErr`.
The project settings (`settings.py`) configure django-redis with
`IGNORE_EXCEPTIONS: False`, so a cache-backend failure raises inside the
calling function; the `Cache.erroring` flag models an always-failing backend
and every adapter operation propagates `PyErr.cacheError` when it is set.
-/

namespace Listings

/-- Python exceptions relevant to the embedded code paths. -/
inductive PyErr where
  | nameError
  | cacheError
deriving DecidableEq

/-- The `Property` model (models.py:6-40).  `id` stands for the UUID primary
key, `created_at` for the creation instant; descriptive attributes that do not
influence caching are carried by `title` and `location`. -/
structure Property where
  id : Nat
  title : String
  location : String
  property_type : String
  is_available : Bool
  featured : Bool
  created_at : Nat
deriving DecidableEq

/-- `Property.PROPERTY_TYPES` (models.py:7-16): the known discriminator
values. -/
def PROPERTY_TYPES : List String :=
  ["house", "apartment", "condo", "townhouse", "villa", "cabin", "studio", "loft"]

/-- Values stored in the cache: a cached queryset, a single property object,
or an isoformat timestamp string (modelled by the instant it renders). -/
inductive CVal where
  | qs : List Property → CVal
  | ent : Property → CVal
  | ts : Nat → CVal
deriving DecidableEq

/-- Python truthiness of a cached value: an empty queryset is falsy, a model
instance is truthy, a nonempty isoformat string is truthy. -/
def truthy : CVal → Bool
  | CVal.qs ps => !ps.isEmpty
  | CVal.ent _ => true
  | CVal.ts _ => true

/-- One cache entry: key, value and the TTL (seconds) it was stored with. -/
structure CacheLine where
  key : String
  val : CVal
  ttl : Nat
deriving DecidableEq

/-- The cache backend: its lines, plus a flag modelling a backend that fails
every get/set/delete call (settings.py sets `IGNORE_EXCEPTIONS: False`, so
such failures raise in the caller). -/
structure Cache where
  lines : List CacheLine
  erroring : Bool
deriving DecidableEq

/-- Value currently stored under a key (no backend interaction). -/
def cache_lookup (c : Cache) (k : String) : Option CVal :=
  (c.lines.find? (fun l => l.key == k)).map (fun l => l.val)

/-- TTL recorded for a key (no backend interaction). -/
def cache_ttl (c : Cache) (k : String) : Option Nat :=
  (c.lines.find? (fun l => l.key == k)).map (fun l => l.ttl)

/-- `cache.get(key)`: `None` on a missing key; raises if the backend errors. -/
def cache_get (c : Cache) (k : String) : Except PyErr (Option CVal) :=
  if c.erroring then Except.error PyErr.cacheError
  else Except.ok (cache_lookup c k)

/-- `cache.set(key, value, timeout)`: overwrites the key; raises if the
backend errors. -/
def cache_set (c : Cache) (k : String) (v : CVal) (ttl : Nat) :
    Except PyErr Cache :=
  if c.erroring then Except.error PyErr.cacheError
  else Except.ok { c with lines := c.lines.filter (fun l => !(l.key == k)) ++ [⟨k, v, ttl⟩] }

/-- `cache.delete(key)`: returns whether the key existed (Django's delete
returns a boolean); raises if the backend errors. -/
def cache_delete (c : Cache) (k : String) : Except PyErr (Bool × Cache) :=
  if c.erroring then Except.error PyErr.cacheError
  else Except.ok (c.lines.any (fun l => l.key == k),
                  { c with lines := c.lines.filter (fun l => !(l.key == k)) })

/-- The delete loop of `invalidate_property_cache` (utils.py:157-161): deletes
each key in turn and counts the deletions that reported an existing key. -/
def delete_keys (c : Cache) : List String → Except PyErr (Nat × Cache)
  | [] => Except.ok (0, c)
  | k :: rest => do
      let r ← cache_delete c k
      let t ← delete_keys r.2 rest
      Except.ok ((if r.1 then 1 else 0) + t.1, t.2)

/-- `.order_by('-created_at')`: insertion step for descending creation time. -/
def insert_created_desc (e : Property) : List Property → List Property
  | [] => [e]
  | x :: xs =>
      if x.created_at ≤ e.created_at then e :: x :: xs
      else x :: insert_created_desc e xs

/-- `.order_by('-created_at')` on a queryset. -/
def sort_by_created_desc (l : List Property) : List Property :=
  l.foldr insert_created_desc []

/-- Parameters declared by `def get_all_properties():` (utils.py:11): none. -/
def get_all_properties_param_names : List String := []

/-- Names bound at module scope in `properties/utils.py` (imports, `logger`,
and the module's function defs); no module-level `force_refresh` exists. -/
def utils_global_names : List String :=
  ["logging", "cache", "RedisCache", "get_redis_connection", "Property",
   "json", "datetime", "timedelta", "time", "logger",
   "get_all_properties", "get_property_by_id", "cache_property_queryset",
   "get_cached_properties_by_type", "invalidate_property_cache",
   "get_redis_cache_metrics", "analyze_cache_patterns",
   "get_cache_health_check", "log_cache_metrics_to_file",
   "get_cache_performance_report", "clear_cache_and_get_metrics"]

/-- Boolean bindings visible to the body of `get_all_properties`.  The def at
utils.py:11 takes no parameters and the module binds no `force_refresh`, so
this environment is empty and the read at utils.py:24 raises `NameError`. -/
def get_all_properties_env : List (String × Bool) := []

/-- Cache-population tail of `get_all_properties` (utils.py:36-49): query all
properties ordered by creation time descending, store them under
`all_properties` for 3600 s, store the current instant under
`all_properties_timestamp` for 3600 s, return the fresh queryset. -/
def get_all_properties_populate (db : List Property) (c : Cache) (now : Nat) :
    Except PyErr (CVal × Cache) := do
  let qs := sort_by_created_desc db
  let c2 ← cache_set c "all_properties" (CVal.qs qs) 3600
  let c3 ← cache_set c2 "all_properties_timestamp" (CVal.ts now) 3600
  Except.ok (CVal.qs qs, c3)

/-- Body of `get_all_properties` (utils.py:11-49) relative to an environment
supplying the free name `force_refresh` read at line 24; `none` from the
lookup is Python's `NameError`. -/
def get_all_properties_with_env (env : List (String × Bool))
    (db : List Property) (c : Cache) (now : Nat) :
    Except PyErr (CVal × Cache) :=
  match env.lookup "force_refresh" with
  | none => Except.error PyErr.nameError
  | some force_refresh => do
      let c1 ←
        if force_refresh then do
          let r ← cache_delete c "all_properties"
          Except.ok r.2
        else Except.ok c
      let cached ← cache_get c1 "all_properties"
      match cached with
      | some v =>
          if force_refresh then get_all_properties_populate db c1 now
          else Except.ok (v, c1)
      | none => get_all_properties_populate db c1 now

/-- `get_all_properties` as defined at utils.py:11: no parameter binds
`force_refresh`, so the body runs in the empty environment. -/
def get_all_properties (db : List Property) (c : Cache) (now : Nat) :
    Except PyErr (CVal × Cache) :=
  get_all_properties_with_env get_all_properties_env db c now

/-- Database path of `get_property_by_id` (utils.py:70-81): look the id up in
the store; on `DoesNotExist` return `None` without caching; otherwise cache
the object under `property_{id}` for 7200 s and return it. -/
def get_property_by_id_dbpath (db : List Property) (c : Cache) (pid : Nat)
    (key : String) : Except PyErr (Option CVal × Cache) :=
  match db.find? (fun p => p.id == pid) with
  | some p => do
      let c2 ← cache_set c key (CVal.ent p) 7200
      Except.ok (some (CVal.ent p), c2)
  | none => Except.ok (none, c)

/-- `get_property_by_id` (utils.py:51-81).  The hit test at line 66 is Python
truthiness (`if cached_property:`). -/
def get_property_by_id (db : List Property) (c : Cache) (pid : Nat) :
    Except PyErr (Option CVal × Cache) := do
  let key := "property_" ++ toString pid
  let cached ← cache_get c key
  match cached with
  | some v =>
      if truthy v then Except.ok (some v, c)
      else get_property_by_id_dbpath db c pid key
  | none => get_property_by_id_dbpath db c pid key

/-- Cache-population tail of `get_cached_properties_by_type`
(utils.py:118-128): filter by type and availability, order by creation time
descending, store under `properties_type_{type}` for 1800 s. -/
def get_cached_properties_by_type_populate (db : List Property) (c : Cache)
    (property_type : String) : Except PyErr (CVal × Cache) := do
  let qs := sort_by_created_desc
    (db.filter (fun p => p.property_type == property_type && p.is_available))
  let c2 ← cache_set c ("properties_type_" ++ property_type) (CVal.qs qs) 1800
  Except.ok (CVal.qs qs, c2)

/-- `get_cached_properties_by_type` (utils.py:96-128).  The hit test at line
114 is `cached_data is not None and not force_refresh`. -/
def get_cached_properties_by_type (db : List Property) (c : Cache)
    (property_type : String) (force_refresh : Bool) :
    Except PyErr (CVal × Cache) := do
  let c1 ←
    if force_refresh then do
      let r ← cache_delete c ("properties_type_" ++ property_type)
      Except.ok r.2
    else Except.ok c
  let cached ← cache_get c1 ("properties_type_" ++ property_type)
  match cached with
  | some v =>
      if force_refresh then get_cached_properties_by_type_populate db c1 property_type
      else Except.ok (v, c1)
  | none => get_cached_properties_by_type_populate db c1 property_type

/-- `invalidate_property_cache` (utils.py:130-165): with an id, delete
`property_{id}` and `all_properties`; without, delete `all_properties`,
`all_properties_timestamp` and `properties_type_{t}` for every known type;
return the number of keys that existed. -/
def invalidate_property_cache (c : Cache) (property_id : Option Nat) :
    Except PyErr (Nat × Cache) :=
  let cache_keys :=
    match property_id with
    | some pid => ["property_" ++ toString pid, "all_properties"]
    | none =>
        ["all_properties", "all_properties_timestamp"] ++
          PROPERTY_TYPES.map (fun t => "properties_type_" ++ t)
  delete_keys c cache_keys

/-- Events observable from a Django save of a `Property`: a cache-key
deletion issued by a signal handler, and the database commit itself. -/
inductive Ev where
  | del : String → Ev
  | commit : Ev
deriving DecidableEq

/-- `check_property_changes` (signals.py:72-99), the `pre_save` handler: read
the pre-mutation row; if the discriminator changed, delete the old type's list
key; if the featured flag changed, delete `featured_properties`.  Returns the
updated cache and the keys whose deletion it issued, in order.  Only
`Property.DoesNotExist` is caught, so cache errors propagate. -/
def check_property_changes (db : List Property) (c : Cache)
    (inst : Property) : Except PyErr (Cache × List String) :=
  match db.find? (fun p => p.id == inst.id) with
  | some old => do
      let (c1, ks1) ←
        if !(old.property_type == inst.property_type) then do
          let r ← cache_delete c ("properties_type_" ++ old.property_type)
          Except.ok (r.2, ["properties_type_" ++ old.property_type])
        else Except.ok (c, [])
      if !(old.featured == inst.featured) then do
        let r ← cache_delete c1 "featured_properties"
        Except.ok (r.2, ks1 ++ ["featured_properties"])
      else Except.ok (c1, ks1)
  | none => Except.ok (c, [])

/-- The key list built by `invalidate_cache_on_save` at signals.py:14-22:
`all_properties`, `all_properties_timestamp`, the saved instance's type key,
and `featured_properties` when the saved instance is featured. -/
def save_keys (inst : Property) : List String :=
  ["all_properties", "all_properties_timestamp",
   "properties_type_" ++ inst.property_type] ++
    (if inst.featured then ["featured_properties"] else [])

/-- `invalidate_cache_on_save` (signals.py:9-42), the `post_save` handler:
delete `all_properties`, `all_properties_timestamp`, the new type's list key,
`featured_properties` when the saved instance is featured, and then
`property_{id}`.  Returns the deletion count, the cache, and the keys whose
deletion it issued, in order. -/
def invalidate_cache_on_save (c : Cache) (inst : Property) :
    Except PyErr (Nat × Cache × List String) := do
  let keys := save_keys inst
  let r ← delete_keys c keys
  let pkey := "property_" ++ toString inst.id
  let d ← cache_delete r.2 pkey
  Except.ok ((if d.1 then r.1 + 1 else r.1), d.2, keys ++ [pkey])

/-- The database write of `Model.save()` on an existing row: replace the row
with the same id. -/
def db_update (db : List Property) (e : Property) : List Property :=
  db.map (fun x => if x.id == e.id then e else x)

/-- An update-save of a `Property` as Django runs it: the `pre_save` handler
fires, the row is written, the `post_save` handler fires.  The event list
records every issued cache deletion and the commit, in execution order. -/
def save_property (db : List Property) (c : Cache) (inst : Property) :
    Except PyErr (List Property × Cache × List Ev) := do
  let pre ← check_property_changes db c inst
  let db2 := db_update db inst
  let post ← invalidate_cache_on_save pre.1 inst
  Except.ok (db2, post.2.1,
    pre.2.map Ev.del ++ Ev.commit :: post.2.2.map Ev.del)

/-- The claim's temporal predicate: no cache deletion is issued before the
database commit. -/
def dels_only_after_commit (tr : List Ev) : Bool :=
  (tr.takeWhile (fun e => !(e == Ev.commit))).all
    (fun e => match e with | Ev.del _ => false | Ev.commit => true)

/-- Operations issued on the raw redis connection. -/
inductive RedisOp where
  | keysCmd : String → RedisOp
  | scanCmd : Nat → String → Nat → RedisOp
  | delCmd : List String → RedisOp
deriving DecidableEq

/-- Glob matching for redis patterns (`*` matches any run of characters),
with explicit recursion fuel so that it evaluates by kernel reduction; every
recursive call shrinks pattern-length plus subject-length, so fuel equal to
their sum suffices. -/
def globFuel : Nat → List Char → List Char → Bool
  | 0, _, _ => false
  | _ + 1, [], [] => true
  | _ + 1, [], _ :: _ => false
  | f + 1, '*' :: ps, [] => globFuel f ps []
  | f + 1, '*' :: ps, ch :: s => globFuel f ps (ch :: s) || globFuel f ('*' :: ps) s
  | _ + 1, _ :: _, [] => false
  | f + 1, p :: ps, ch :: s => p = ch && globFuel f ps s

/-- Glob matching on strings. -/
def globMatch (pat s : String) : Bool :=
  globFuel (pat.length + s.length + 1) pat.data s.data

/-- The blocking `KEYS pattern` command: one full-keyspace enumeration. -/
def redis_keys (ks : List String) (pat : String) : List String :=
  ks.filter (fun k => globMatch pat k)

/-- `invalidate_all_property_caches` (signals.py:115-137): run
`KEYS "property_listings:*property*"` on the raw connection and bulk-delete
whatever it returned.  Result: deleted count, remaining keyspace, and the
redis operations issued in order. -/
def invalidate_all_property_caches (ks : List String) :
    Nat × List String × List RedisOp :=
  let pat := "property_listings:*property*"
  let found := redis_keys ks pat
  if found.isEmpty then (0, ks, [RedisOp.keysCmd pat])
  else (found.length, ks.filter (fun k => !globMatch pat k),
        [RedisOp.keysCmd pat, RedisOp.delCmd found])

/-- One `SCAN cursor MATCH pat COUNT cnt` step over a keyspace snapshot:
return the next cursor (0 when the walk is done) and the matching keys of the
current page. -/
def scan_step (ks : List String) (pat : String) (cursor cnt : Nat) :
    Nat × List String :=
  let page := (ks.drop cursor).take cnt
  let nxt := cursor + cnt
  (if nxt < ks.length then nxt else 0, page.filter (fun k => globMatch pat k))

/-- The SCAN loop of `get_redis_cache_metrics` (utils.py:221-230): repeat
`scan` until the returned cursor is 0, collecting matches and recording every
issued operation. -/
def scan_loop (ks : List String) (pat : String) (cursor cnt : Nat) :
    Nat → List String × List RedisOp
  | 0 => ([], [])
  | fuel + 1 =>
      let st := scan_step ks pat cursor cnt
      if st.1 == 0 then (st.2, [RedisOp.scanCmd cursor pat cnt])
      else
        let rest := scan_loop ks pat st.1 cnt fuel
        (st.2 ++ rest.1, RedisOp.scanCmd cursor pat cnt :: rest.2)

/-- The property-key scan of `get_redis_cache_metrics` (utils.py:217-230):
cursor-paged enumeration of keys matching `*property*` in batches of 100. -/
def scan_property_keys (ks : List String) : List String × List RedisOp :=
  scan_loop ks "*property*" 0 100 (ks.length + 1)

/-- The counters read from `redis_conn.info()`; the code defaults every
missing field to 0 via `info.get(..., 0)`, so the structure carries the
already-defaulted values. -/
structure RedisInfo where
  keyspace_hits : Nat
  keyspace_misses : Nat
  used_memory : Nat
  maxmemory : Nat
  connected_clients : Nat
  maxclients : Nat
deriving DecidableEq

/-- Hit-ratio computation of `get_redis_cache_metrics` (utils.py:197-204):
`hits / (hits + misses) * 100`, and 0 when there were no operations. -/
def hit_ratio_of (hits misses : Nat) : ℚ :=
  if hits + misses > 0 then (hits : ℚ) / ((hits : ℚ) + (misses : ℚ)) * 100
  else 0

/-- Memory-percentage computation of `get_redis_cache_metrics`
(utils.py:207-213): `used / max * 100`, and 0 when no maxmemory is set. -/
def memory_usage_percent_of (used maxm : Nat) : ℚ :=
  if maxm > 0 then (used : ℚ) / (maxm : ℚ) * 100 else 0

/-- Client-utilization computation (utils.py:292-295):
`connected_clients / max(1, maxclients) * 100`. -/
def client_utilization_of (connected maxc : Nat) : ℚ :=
  (connected : ℚ) / ((max 1 maxc : Nat) : ℚ) * 100

/-- Python's `round` to an integer: round half to even. -/
def round_half_even (q : ℚ) : ℤ :=
  let f := Int.floor q
  let r := q - (f : ℚ)
  if r < 1 / 2 then f
  else if 1 / 2 < r then f + 1
  else if f % 2 = 0 then f else f + 1

/-- Python's `round(q, 2)`. -/
def round2 (q : ℚ) : ℚ :=
  ((round_half_even (q * 100) : ℚ)) / 100

/-- The fields of the metrics dictionary built by `get_redis_cache_metrics`
(utils.py:183-340) that the verified claims mention, plus its status tag. -/
structure MetricsResult where
  status : String
  hits : Nat
  misses : Nat
  hit_ratio_percent : ℚ
  memory_usage_percent : ℚ
  client_utilization_percent : ℚ
  connected_clients : Nat
  max_clients : Nat
deriving DecidableEq

/-- `get_redis_cache_metrics` (utils.py:183-340): on any backend error the
whole body is caught and an error-status dictionary is returned; on success
the computed percentages are stored rounded to two decimals. -/
def get_redis_cache_metrics (info : Option RedisInfo) : MetricsResult :=
  match info with
  | none =>
      { status := "error", hits := 0, misses := 0, hit_ratio_percent := 0,
        memory_usage_percent := 0, client_utilization_percent := 0,
        connected_clients := 0, max_clients := 0 }
  | some i =>
      { status := "success",
        hits := i.keyspace_hits,
        misses := i.keyspace_misses,
        hit_ratio_percent := round2 (hit_ratio_of i.keyspace_hits i.keyspace_misses),
        memory_usage_percent := round2 (memory_usage_percent_of i.used_memory i.maxmemory),
        client_utilization_percent := round2 (client_utilization_of i.connected_clients i.maxclients),
        connected_clients := i.connected_clients,
        max_clients := i.maxclients }

/-- Hit-ratio classification of `analyze_cache_patterns` (utils.py:370-387):
POOR below 50, FAIR below 80, EXCELLENT otherwise. -/
def hit_ratio_status_of (r : ℚ) : String :=
  if r < 50 then "POOR" else if r < 80 then "FAIR" else "EXCELLENT"

/-- Memory classification of `analyze_cache_patterns` (utils.py:389-403):
CRITICAL strictly above 90, HIGH strictly above 70, HEALTHY otherwise. -/
def memory_status_of (m : ℚ) : String :=
  if m > 90 then "CRITICAL" else if m > 70 then "HIGH" else "HEALTHY"

/-- Hit-ratio component classification of `get_cache_health_check`
(utils.py:473-478). -/
def hit_component_status (r : ℚ) : String :=
  if r > 70 then "HEALTHY" else if r > 40 then "WARNING" else "CRITICAL"

/-- Memory component classification of `get_cache_health_check`
(utils.py:480-486). -/
def mem_component_status (m : ℚ) : String :=
  if m < 80 then "HEALTHY" else if m < 90 then "WARNING" else "CRITICAL"

/-- Connection component classification of `get_cache_health_check`
(utils.py:488-497). -/
def conn_component_status (u : ℚ) : String :=
  if u < 80 then "HEALTHY" else if u < 90 then "WARNING" else "CRITICAL"

/-- Overall aggregation of `get_cache_health_check` (utils.py:499-510): any
CRITICAL component makes the overall status CRITICAL, else any WARNING makes
it WARNING, else HEALTHY. -/
def overall_of (cs : List String) : String :=
  if cs.any (fun s => s == "CRITICAL") then "CRITICAL"
  else if cs.any (fun s => s == "WARNING") then "WARNING"
  else "HEALTHY"

/-- Observable behaviour of the redis backend during a health check: the ping
round-trip in milliseconds (`none` when the probe raises) and the `info()`
counters (`none` when reading them raises). -/
structure HealthBackend where
  ping_ms : Option ℚ
  info : Option RedisInfo
deriving DecidableEq

/-- The health-check report built by `get_cache_health_check`
(utils.py:442-525); component fields are `none` when the code does not set
them on the taken path. -/
structure HealthCheck where
  status : String
  conn_status : Option String
  conn_message : Option String
  comp_hit_status : Option String
  comp_mem_status : Option String
  comp_conn_status : Option String
  overall_status : String
deriving DecidableEq

/-- `get_cache_health_check` (utils.py:442-525): ping the backend; a probe
failure is caught and reported as overall UNREACHABLE; connectivity is
HEALTHY under 10 ms and SLOW otherwise, with the message downgraded to
"Redis response is slow" from 100 ms; when the metrics read succeeds the three
component statuses are computed and aggregated worst-first, and when it fails
the overall status is ERROR. -/
def get_cache_health_check (b : HealthBackend) : HealthCheck :=
  match b.ping_ms with
  | none =>
      { status := "error", conn_status := none, conn_message := none,
        comp_hit_status := none, comp_mem_status := none,
        comp_conn_status := none, overall_status := "UNREACHABLE" }
  | some t =>
      let conn_st := if t < 10 then "HEALTHY" else "SLOW"
      let conn_msg := if t < 100 then "Redis is reachable" else "Redis response is slow"
      match b.info with
      | none =>
          { status := "success", conn_status := some conn_st,
            conn_message := some conn_msg, comp_hit_status := none,
            comp_mem_status := none, comp_conn_status := none,
            overall_status := "ERROR" }
      | some i =>
          let m := get_redis_cache_metrics (some i)
          let hs := hit_component_status m.hit_ratio_percent
          let ms := mem_component_status m.memory_usage_percent
          let cp := (m.connected_clients : ℚ) / ((max 1 m.max_clients : Nat) : ℚ) * 100
          let cs := conn_component_status cp
          { status := "success", conn_status := some conn_st,
            conn_message := some conn_msg, comp_hit_status := some hs,
            comp_mem_status := some ms, comp_conn_status := some cs,
            overall_status := overall_of [hs, ms, cs] }

/-- Division with an explicit zero-denominator check: `none` exactly when the
denominator is zero (where Python would raise `ZeroDivisionError`). -/
def cdiv (a b : ℚ) : Option ℚ :=
  if b = 0 then none else some (a / b)

/-- The hit-ratio computation with its division checked, mirroring the guard
at utils.py:202-204. -/
def hit_ratio_checked (hits misses : Nat) : Option ℚ :=
  if hits + misses > 0 then
    (cdiv (hits : ℚ) ((hits : ℚ) + (misses : ℚ))).map (fun q => q * 100)
  else some 0

/-- The memory-percentage computation with its division checked, mirroring the
guard at utils.py:211-213. -/
def memory_percent_checked (used maxm : Nat) : Option ℚ :=
  if maxm > 0 then (cdiv (used : ℚ) (maxm : ℚ)).map (fun q => q * 100)
  else some 0

/-- The client-utilization computation with its division checked, mirroring
utils.py:292-295 and utils.py:489-491 (`max(1, maxclients)`). -/
def client_util_checked (connected maxc : Nat) : Option ℚ :=
  (cdiv (connected : ℚ) (((max 1 maxc : Nat)) : ℚ)).map (fun q => q * 100)

/-- Pure effect of a successful `cache.delete` on the cache state. -/
def cdel (c : Cache) (k : String) : Cache :=
  { c with lines := c.lines.filter (fun l => !(l.key == k)) }

/-- Pure effect of a successful `cache.set` on the cache state. -/
def cset (c : Cache) (k : String) (v : CVal) (ttl : Nat) : Cache :=
  { c with lines := c.lines.filter (fun l => !(l.key == k)) ++ [⟨k, v, ttl⟩] }

/-- Pure unfolding of the `delete_keys` loop on a non-erroring backend. -/
def run_dels (c : Cache) : List String → Nat × Cache
  | [] => (0, c)
  | k :: ks =>
      let t := run_dels (cdel c k) ks
      ((if c.lines.any (fun l => l.key == k) then 1 else 0) + t.1, t.2)

/-- Number of keys of a list currently present in the cache. -/
def count_present (c : Cache) (ks : List String) : Nat :=
  (ks.filter (fun k => (cache_lookup c k).isSome)).length

/-- A redis-operation trace that enumerates keys only through cursor-based
SCAN pages, never through the blocking KEYS command. -/
def uses_cursor_scan_only (tr : List RedisOp) : Bool :=
  tr.all (fun op => match op with | RedisOp.keysCmd _ => false | _ => true)

/-! ## Lemmas about the cache adapter -/

theorem any_eq_isSome_find? (p : CacheLine → Bool) (ls : List CacheLine) :
    ls.any p = (ls.find? p).isSome := by
  induction ls with
  | nil => rfl
  | cons hd t ih =>
      cases hp : p hd <;> simp [List.any_cons, List.find?_cons, hp, ih]

theorem find?_filter_key_none (ls : List CacheLine) (k : String) :
    (ls.filter (fun l => !(l.key == k))).find? (fun l => l.key == k) = none := by
  induction ls with
  | nil => rfl
  | cons hd t ih =>
      cases hk : hd.key == k <;>
        simp [List.filter_cons, hk, List.find?_cons, ih]

theorem find?_filter_key_other (ls : List CacheLine) (k j : String)
    (hjk : j ≠ k) :
    (ls.filter (fun l => !(l.key == k))).find? (fun l => l.key == j)
      = ls.find? (fun l => l.key == j) := by
  induction ls with
  | nil => rfl
  | cons hd t ih =>
      cases hk : hd.key == k <;> cases hj : hd.key == j <;>
        simp_all [List.filter_cons, List.find?_cons]

theorem find?_filter_none_mono (p q : CacheLine → Bool) (ls : List CacheLine)
    (h : ls.find? p = none) : (ls.filter q).find? p = none := by
  induction ls with
  | nil => rfl
  | cons hd t ih =>
      rw [List.find?_cons] at h
      cases hp : p hd
      · rw [hp] at h
        cases hq : q hd <;> simp [List.filter_cons, hq, List.find?_cons, hp, ih h]
      · rw [hp] at h; exact absurd h (by simp)

theorem cache_delete_eq (c : Cache) (k : String) (h : c.erroring = false) :
    cache_delete c k = Except.ok (c.lines.any (fun l => l.key == k), cdel c k) := by
  simp [cache_delete, h, cdel]

theorem cache_set_eq (c : Cache) (k : String) (v : CVal) (ttl : Nat)
    (h : c.erroring = false) :
    cache_set c k v ttl = Except.ok (cset c k v ttl) := by
  simp [cache_set, h, cset]

theorem cache_get_eq (c : Cache) (k : String) (h : c.erroring = false) :
    cache_get c k = Except.ok (cache_lookup c k) := by
  simp [cache_get, h]

theorem cdel_erroring (c : Cache) (k : String) :
    (cdel c k).erroring = c.erroring := rfl

theorem cset_erroring (c : Cache) (k : String) (v : CVal) (ttl : Nat) :
    (cset c k v ttl).erroring = c.erroring := rfl

theorem lookup_cdel_self (c : Cache) (k : String) :
    cache_lookup (cdel c k) k = none := by
  simp [cache_lookup, cdel, find?_filter_key_none]

theorem lookup_cdel_other (c : Cache) (k j : String) (hjk : j ≠ k) :
    cache_lookup (cdel c k) j = cache_lookup c j := by
  simp [cache_lookup, cdel, find?_filter_key_other _ _ _ hjk]

theorem lookup_cdel_none (c : Cache) (k j : String)
    (h : cache_lookup c j = none) : cache_lookup (cdel c k) j = none := by
  rcases Option.map_eq_none'.mp h with hf
  simp [cache_lookup, cdel, find?_filter_none_mono _ _ _ hf]

theorem cdel_of_absent (c : Cache) (k : String)
    (h : cache_lookup c k = none) : cdel c k = c := by
  rcases Option.map_eq_none'.mp h with hf
  have : ∀ l ∈ c.lines, (l.key == k) = false := by
    intro l hl
    have := List.find?_eq_none.mp hf l hl
    simpa using this
  cases c with
  | mk lines erroring =>
      simp only [cdel]
      congr 1
      exact List.filter_eq_self.mpr (by intro a ha; simp [this a ha])

theorem lookup_cset_self (c : Cache) (k : String) (v : CVal) (ttl : Nat) :
    cache_lookup (cset c k v ttl) k = some v := by
  have hnone := find?_filter_key_none c.lines k
  simp [cache_lookup, cset, List.find?_append, hnone]

theorem ttl_cset_self (c : Cache) (k : String) (v : CVal) (ttl : Nat) :
    cache_ttl (cset c k v ttl) k = some ttl := by
  have hnone := find?_filter_key_none c.lines k
  simp [cache_ttl, cset, List.find?_append, hnone]

theorem lookup_cset_other (c : Cache) (k j : String) (v : CVal) (ttl : Nat)
    (hjk : j ≠ k) :
    cache_lookup (cset c k v ttl) j = cache_lookup c j := by
  have hoth := find?_filter_key_other c.lines k j hjk
  simp [cache_lookup, cset, List.find?_append, hoth, List.find?_cons,
    show (k == j) = false by simp [Ne.symm hjk]]

theorem except_bind_ok {α β ε : Type} (a : α) (f : α → Except ε β) :
    (Except.ok a : Except ε α) >>= f = f a := rfl

theorem except_bind_err {α β ε : Type} (e : ε) (f : α → Except ε β) :
    (Except.error e : Except ε α) >>= f = Except.error e := rfl

theorem delete_keys_eq (ks : List String) (c : Cache) (h : c.erroring = false) :
    delete_keys c ks = Except.ok (run_dels c ks) := by
  induction ks generalizing c with
  | nil => rfl
  | cons k rest ih =>
      have hdel := cache_delete_eq c k h
      have hrec := ih (cdel c k) (by rw [cdel_erroring]; exact h)
      simp only [delete_keys, hdel, except_bind_ok]
      simp only [hrec, except_bind_ok, run_dels]

theorem run_dels_erroring (ks : List String) (c : Cache) :
    (run_dels c ks).2.erroring = c.erroring := by
  induction ks generalizing c with
  | nil => rfl
  | cons k rest ih => simpa [run_dels] using ih (cdel c k)

theorem run_dels_lookup_none (ks : List String) (c : Cache) (j : String)
    (h : cache_lookup c j = none) :
    cache_lookup (run_dels c ks).2 j = none := by
  induction ks generalizing c with
  | nil => exact h
  | cons k rest ih =>
      simpa [run_dels] using ih (cdel c k) (lookup_cdel_none c k j h)

theorem run_dels_lookup_mem (ks : List String) (c : Cache) (k : String)
    (hk : k ∈ ks) : cache_lookup (run_dels c ks).2 k = none := by
  induction ks generalizing c with
  | nil => cases hk
  | cons k0 rest ih =>
      rcases List.mem_cons.mp hk with hk0 | hk0
      · subst hk0
        simpa [run_dels] using
          run_dels_lookup_none rest (cdel c k) k (lookup_cdel_self c k)
      · simpa [run_dels] using ih (cdel c k0) hk0

theorem run_dels_lookup_not_mem (ks : List String) (c : Cache) (j : String)
    (hj : j ∉ ks) : cache_lookup (run_dels c ks).2 j = cache_lookup c j := by
  induction ks generalizing c with
  | nil => rfl
  | cons k rest ih =>
      have hjk : j ≠ k := fun he => hj (he ▸ List.mem_cons_self k rest)
      have hjr : j ∉ rest := fun hr => hj (List.mem_cons_of_mem k hr)
      calc cache_lookup (run_dels c (k :: rest)).2 j
          = cache_lookup (run_dels (cdel c k) rest).2 j := by simp [run_dels]
        _ = cache_lookup (cdel c k) j := ih (cdel c k) hjr
        _ = cache_lookup c j := lookup_cdel_other c k j hjk

theorem count_present_congr (ks : List String) (c1 c2 : Cache)
    (h : ∀ k ∈ ks, cache_lookup c1 k = cache_lookup c2 k) :
    count_present c1 ks = count_present c2 ks := by
  induction ks with
  | nil => rfl
  | cons k rest ih =>
      have hk := h k (List.mem_cons_self k rest)
      have hr := ih (fun j hj => h j (List.mem_cons_of_mem k hj))
      simp [count_present, List.filter_cons, hk] at hr ⊢
      cases hx : (cache_lookup c2 k).isSome <;> simp [hx, hr]

theorem any_key_eq_lookup_isSome (c : Cache) (k : String) :
    c.lines.any (fun l => l.key == k) = (cache_lookup c k).isSome := by
  rw [any_eq_isSome_find?]
  simp [cache_lookup]

theorem run_dels_count (ks : List String) (c : Cache) (hnd : ks.Nodup) :
    (run_dels c ks).1 = count_present c ks := by
  induction ks generalizing c with
  | nil => rfl
  | cons k rest ih =>
      have hk : k ∉ rest := (List.nodup_cons.mp hnd).1
      have hnd' : rest.Nodup := (List.nodup_cons.mp hnd).2
      have hcongr : count_present (cdel c k) rest = count_present c rest :=
        count_present_congr rest (cdel c k) c
          (fun j hj => lookup_cdel_other c k j (fun he => hk (he ▸ hj)))
      have hrec := ih (cdel c k) hnd'
      simp only [run_dels, hrec, hcongr, any_key_eq_lookup_isSome]
      simp only [count_present, List.filter_cons]
      cases hx : (cache_lookup c k).isSome <;> simp [hx, Nat.add_comm]

theorem run_dels_absent (ks : List String) (c : Cache)
    (h : ∀ k ∈ ks, cache_lookup c k = none) : run_dels c ks = (0, c) := by
  induction ks generalizing c with
  | nil => rfl
  | cons k rest ih =>
      have hk := h k (List.mem_cons_self k rest)
      have hde : cdel c k = c := cdel_of_absent c k hk
      have hany : c.lines.any (fun l => l.key == k) = false := by
        rw [any_key_eq_lookup_isSome, hk]; rfl
      simp [run_dels, hde, hany, ih c (fun j hj => h j (List.mem_cons_of_mem k hj))]

theorem property_key_ne_all (s : String) :
    ("property_" ++ s) ≠ "all_properties" := by
  intro h
  have hd : ("property_" ++ s).data = "all_properties".data := by rw [h]
  rw [String.data_append] at hd
  have h1 : "property_".data = ['p', 'r', 'o', 'p', 'e', 'r', 't', 'y', '_'] := rfl
  have h2 : "all_properties".data
      = ['a', 'l', 'l', '_', 'p', 'r', 'o', 'p', 'e', 'r', 't', 'i', 'e', 's'] := rfl
  rw [h1, h2] at hd
  have hh : some 'p' = some 'a' := by simpa using congrArg List.head? hd
  exact absurd (Option.some.inj hh) (by decide)

/-- C5.  invalidate semantics (utils.py:130-165): with an id exactly
`property_{id}` and `all_properties` are deleted and every other key is
untouched; without an id exactly `all_properties`, `all_properties_timestamp`
and the eight `properties_type_{t}` keys are deleted; the returned count is
the number of those keys that were present (absent keys count zero, no
error); and an immediate second call with the same id succeeds, changes
nothing and returns 0. -/
theorem c5_invalidate_semantics (c : Cache) (pid : Nat)
    (herr : c.erroring = false) :
    (∃ n c2, invalidate_property_cache c (some pid) = Except.ok (n, c2) ∧
      (∀ k ∈ ["property_" ++ toString pid, "all_properties"],
        cache_lookup c2 k = none) ∧
      (∀ j, j ∉ ["property_" ++ toString pid, "all_properties"] →
        cache_lookup c2 j = cache_lookup c j) ∧
      n = count_present c ["property_" ++ toString pid, "all_properties"]) ∧
    (∃ n c2, invalidate_property_cache c none = Except.ok (n, c2) ∧
      (∀ k ∈ ["all_properties", "all_properties_timestamp"] ++
          PROPERTY_TYPES.map (fun t => "properties_type_" ++ t),
        cache_lookup c2 k = none) ∧
      (∀ j, j ∉ ["all_properties", "all_properties_timestamp"] ++
          PROPERTY_TYPES.map (fun t => "properties_type_" ++ t) →
        cache_lookup c2 j = cache_lookup c j) ∧
      n = count_present c (["all_properties", "all_properties_timestamp"] ++
          PROPERTY_TYPES.map (fun t => "properties_type_" ++ t))) ∧
    (∀ n c2, invalidate_property_cache c (some pid) = Except.ok (n, c2) →
      invalidate_property_cache c2 (some pid) = Except.ok (0, c2)) := by
  have hnd_id : (["property_" ++ toString pid, "all_properties"]).Nodup := by
    simp [List.nodup_cons, property_key_ne_all (toString pid)]
  have hnd_none : ((["all_properties", "all_properties_timestamp"] ++
      PROPERTY_TYPES.map (fun t => "properties_type_" ++ t))).Nodup := by
    decide
  refine ⟨?_, ?_, ?_⟩
  · refine ⟨(run_dels c ["property_" ++ toString pid, "all_properties"]).1,
      (run_dels c ["property_" ++ toString pid, "all_properties"]).2,
      ?_, ?_, ?_, ?_⟩
    · simpa [invalidate_property_cache] using
        delete_keys_eq ["property_" ++ toString pid, "all_properties"] c herr
    · intro k hk; exact run_dels_lookup_mem _ c k hk
    · intro j hj; exact run_dels_lookup_not_mem _ c j hj
    · exact run_dels_count _ c hnd_id
  · refine ⟨(run_dels c (["all_properties", "all_properties_timestamp"] ++
        PROPERTY_TYPES.map (fun t => "properties_type_" ++ t))).1,
      (run_dels c (["all_properties", "all_properties_timestamp"] ++
        PROPERTY_TYPES.map (fun t => "properties_type_" ++ t))).2,
      ?_, ?_, ?_, ?_⟩
    · simpa [invalidate_property_cache] using
        delete_keys_eq (["all_properties", "all_properties_timestamp"] ++
          PROPERTY_TYPES.map (fun t => "properties_type_" ++ t)) c herr
    · intro k hk; exact run_dels_lookup_mem _ c k hk
    · intro j hj; exact run_dels_lookup_not_mem _ c j hj
    · exact run_dels_count _ c hnd_none
  · intro n c2 heq
    rw [show invalidate_property_cache c (some pid)
        = delete_keys c ["property_" ++ toString pid, "all_properties"] from rfl,
      delete_keys_eq _ c herr] at heq
    simp only [Except.ok.injEq] at heq
    have hc2 : c2 = (run_dels c ["property_" ++ toString pid, "all_properties"]).2 := by
      rw [heq]
    have herr2 : c2.erroring = false := by
      rw [hc2, run_dels_erroring]; exact herr
    have habsent : ∀ k ∈ ["property_" ++ toString pid, "all_properties"],
        cache_lookup c2 k = none := by
      intro k hk; rw [hc2]; exact run_dels_lookup_mem _ c k hk
    rw [show invalidate_property_cache c2 (some pid)
        = delete_keys c2 ["property_" ++ toString pid, "all_properties"] from rfl,
      delete_keys_eq _ c2 herr2, run_dels_absent _ c2 habsent]

/-- C6.  fetchById contract (utils.py:51-81): a truthy cache hit is returned
with the cache untouched; a miss with the id absent from the store returns
`None` and writes nothing to the cache; a miss with the id present caches the
entry under `property_{id}` with TTL 7200 s, touches no other key, and
returns it. -/
theorem c6_fetch_by_id (db : List Property) (c : Cache) (pid : Nat)
    (herr : c.erroring = false) :
    (∀ v, cache_lookup c ("property_" ++ toString pid) = some v →
      truthy v = true → get_property_by_id db c pid = Except.ok (some v, c)) ∧
    (cache_lookup c ("property_" ++ toString pid) = none →
      db.find? (fun p => p.id == pid) = none →
      get_property_by_id db c pid = Except.ok (none, c)) ∧
    (∀ p, cache_lookup c ("property_" ++ toString pid) = none →
      db.find? (fun p => p.id == pid) = some p →
      get_property_by_id db c pid = Except.ok (some (CVal.ent p),
        cset c ("property_" ++ toString pid) (CVal.ent p) 7200) ∧
      cache_lookup (cset c ("property_" ++ toString pid) (CVal.ent p) 7200)
        ("property_" ++ toString pid) = some (CVal.ent p) ∧
      cache_ttl (cset c ("property_" ++ toString pid) (CVal.ent p) 7200)
        ("property_" ++ toString pid) = some 7200 ∧
      (∀ j, j ≠ "property_" ++ toString pid →
        cache_lookup (cset c ("property_" ++ toString pid) (CVal.ent p) 7200) j
          = cache_lookup c j)) := by
  refine ⟨?_, ?_, ?_⟩
  · intro v hv htr
    simp only [get_property_by_id, cache_get_eq c _ herr, except_bind_ok, hv, htr,
      if_true]
  · intro hv hf
    simp only [get_property_by_id, cache_get_eq c _ herr, except_bind_ok, hv,
      get_property_by_id_dbpath, hf]
  · intro p hv hf
    refine ⟨?_, lookup_cset_self c _ _ _, ttl_cset_self c _ _ _,
      fun j hj => lookup_cset_other c _ j _ _ hj⟩
    simp only [get_property_by_id, cache_get_eq c _ herr, except_bind_ok, hv,
      get_property_by_id_dbpath, hf, cache_set_eq c _ _ _ herr, except_bind_ok]

/-- Witness for C5 at a concrete cache holding both keys for id 7. -/
theorem c5_witness :
    (∃ n c2, invalidate_property_cache
        ⟨[⟨"property_7", CVal.ts 0, 7200⟩, ⟨"all_properties", CVal.qs [], 3600⟩],
         false⟩ (some 7) = Except.ok (n, c2) ∧
      (∀ k ∈ ["property_" ++ toString 7, "all_properties"],
        cache_lookup c2 k = none) ∧
      (∀ j, j ∉ ["property_" ++ toString 7, "all_properties"] →
        cache_lookup c2 j = cache_lookup
          ⟨[⟨"property_7", CVal.ts 0, 7200⟩, ⟨"all_properties", CVal.qs [], 3600⟩],
           false⟩ j) ∧
      n = count_present
        ⟨[⟨"property_7", CVal.ts 0, 7200⟩, ⟨"all_properties", CVal.qs [], 3600⟩],
         false⟩ ["property_" ++ toString 7, "all_properties"]) := by
  exact (c5_invalidate_semantics
    ⟨[⟨"property_7", CVal.ts 0, 7200⟩, ⟨"all_properties", CVal.qs [], 3600⟩],
     false⟩ 7 rfl).1

/-- Witness for C6 at a concrete store and empty cache: the miss path caches
the found entry with TTL 7200. -/
theorem c6_witness :
    get_property_by_id [⟨1, "t", "loc", "house", true, false, 0⟩] ⟨[], false⟩ 1
        = Except.ok (some (CVal.ent ⟨1, "t", "loc", "house", true, false, 0⟩),
          cset ⟨[], false⟩ ("property_" ++ toString 1)
            (CVal.ent ⟨1, "t", "loc", "house", true, false, 0⟩) 7200) ∧
      cache_lookup (cset ⟨[], false⟩ ("property_" ++ toString 1)
          (CVal.ent ⟨1, "t", "loc", "house", true, false, 0⟩) 7200)
        ("property_" ++ toString 1)
        = some (CVal.ent ⟨1, "t", "loc", "house", true, false, 0⟩) ∧
      cache_ttl (cset ⟨[], false⟩ ("property_" ++ toString 1)
          (CVal.ent ⟨1, "t", "loc", "house", true, false, 0⟩) 7200)
        ("property_" ++ toString 1) = some 7200 ∧
      (∀ j, j ≠ "property_" ++ toString 1 →
        cache_lookup (cset ⟨[], false⟩ ("property_" ++ toString 1)
            (CVal.ent ⟨1, "t", "loc", "house", true, false, 0⟩) 7200) j
          = cache_lookup ⟨[], false⟩ j) := by
  exact (c6_fetch_by_id [⟨1, "t", "loc", "house", true, false, 0⟩]
    ⟨[], false⟩ 1 rfl).2.2 ⟨1, "t", "loc", "house", true, false, 0⟩ rfl rfl

theorem check_property_changes_eq (db : List Property) (c : Cache)
    (inst old : Property) (herr : c.erroring = false)
    (hold : db.find? (fun p => p.id == inst.id) = some old) :
    check_property_changes db c inst = Except.ok
      (if old.property_type == inst.property_type then
        (if old.featured == inst.featured then (c, ([] : List String))
         else (cdel c "featured_properties", ["featured_properties"]))
       else
        (if old.featured == inst.featured then
          (cdel c ("properties_type_" ++ old.property_type),
           ["properties_type_" ++ old.property_type])
         else
          (cdel (cdel c ("properties_type_" ++ old.property_type))
             "featured_properties",
           ["properties_type_" ++ old.property_type, "featured_properties"]))) := by
  have herr1 : (cdel c ("properties_type_" ++ old.property_type)).erroring = false := by
    rw [cdel_erroring]; exact herr
  cases hpt : old.property_type == inst.property_type <;>
    cases hf : old.featured == inst.featured <;>
      simp only [check_property_changes, hold, hpt, hf, Bool.not_true,
        Bool.not_false, if_true, if_false, cache_delete_eq c _ herr,
        cache_delete_eq _ _ herr1, except_bind_ok, List.nil_append,
        Bool.false_eq_true, Bool.true_eq_false, ite_false, ite_true]
  all_goals rfl

theorem invalidate_cache_on_save_eq (c : Cache) (inst : Property)
    (herr : c.erroring = false) :
    invalidate_cache_on_save c inst = Except.ok
      ((if (run_dels c (save_keys inst)).2.lines.any
            (fun l => l.key == "property_" ++ toString inst.id)
        then (run_dels c (save_keys inst)).1 + 1
        else (run_dels c (save_keys inst)).1),
       cdel (run_dels c (save_keys inst)).2 ("property_" ++ toString inst.id),
       save_keys inst ++ ["property_" ++ toString inst.id]) := by
  have herr2 : (run_dels c (save_keys inst)).2.erroring = false := by
    rw [run_dels_erroring]; exact herr
  simp only [invalidate_cache_on_save, delete_keys_eq _ c herr, except_bind_ok,
    cache_delete_eq _ _ herr2]

theorem post_phase_facts (c1 : Cache) (inst : Property)
    (h1 : c1.erroring = false) :
    (cdel (run_dels c1 (save_keys inst)).2
        ("property_" ++ toString inst.id)).erroring = false ∧
    cache_lookup (cdel (run_dels c1 (save_keys inst)).2
        ("property_" ++ toString inst.id)) "all_properties" = none ∧
    cache_lookup (cdel (run_dels c1 (save_keys inst)).2
        ("property_" ++ toString inst.id)) "all_properties_timestamp" = none ∧
    cache_lookup (cdel (run_dels c1 (save_keys inst)).2
        ("property_" ++ toString inst.id))
      ("properties_type_" ++ inst.property_type) = none ∧
    cache_lookup (cdel (run_dels c1 (save_keys inst)).2
        ("property_" ++ toString inst.id))
      ("property_" ++ toString inst.id) = none ∧
    (∀ j, cache_lookup c1 j = none →
      cache_lookup (cdel (run_dels c1 (save_keys inst)).2
          ("property_" ++ toString inst.id)) j = none) ∧
    (inst.featured = true →
      cache_lookup (cdel (run_dels c1 (save_keys inst)).2
          ("property_" ++ toString inst.id)) "featured_properties" = none) := by
  have hmono : ∀ j, cache_lookup c1 j = none →
      cache_lookup (cdel (run_dels c1 (save_keys inst)).2
        ("property_" ++ toString inst.id)) j = none := by
    intro j hj
    exact lookup_cdel_none _ _ j (run_dels_lookup_none _ c1 j hj)
  have hmem : ∀ k ∈ save_keys inst,
      cache_lookup (cdel (run_dels c1 (save_keys inst)).2
        ("property_" ++ toString inst.id)) k = none := by
    intro k hk
    exact lookup_cdel_none _ _ k (run_dels_lookup_mem _ c1 k hk)
  refine ⟨by rw [cdel_erroring, run_dels_erroring]; exact h1,
    hmem _ (by simp [save_keys]), hmem _ (by simp [save_keys]),
    hmem _ (by simp [save_keys]), lookup_cdel_self _ _, hmono, ?_⟩
  intro hfeat
  exact hmem _ (by simp [save_keys, hfeat])

theorem save_property_spec (db : List Property) (c : Cache)
    (inst old : Property) (herr : c.erroring = false)
    (hold : db.find? (fun p => p.id == inst.id) = some old) :
    ∃ c2, save_property db c inst = Except.ok (db_update db inst, c2,
      ((if old.property_type == inst.property_type then ([] : List Ev)
        else [Ev.del ("properties_type_" ++ old.property_type)]) ++
       (if old.featured == inst.featured then ([] : List Ev)
        else [Ev.del "featured_properties"]) ++
       Ev.commit ::
         ((save_keys inst).map Ev.del ++
          [Ev.del ("property_" ++ toString inst.id)]))) ∧
      c2.erroring = false ∧
      cache_lookup c2 "all_properties" = none ∧
      cache_lookup c2 "all_properties_timestamp" = none ∧
      cache_lookup c2 ("properties_type_" ++ inst.property_type) = none ∧
      cache_lookup c2 ("property_" ++ toString inst.id) = none ∧
      (old.property_type ≠ inst.property_type →
        cache_lookup c2 ("properties_type_" ++ old.property_type) = none) ∧
      ((old.featured ≠ inst.featured ∨ inst.featured = true) →
        cache_lookup c2 "featured_properties" = none) := by
  have hpre := check_property_changes_eq db c inst old herr hold
  cases hpt : old.property_type == inst.property_type <;>
    cases hf : old.featured == inst.featured
  all_goals
    rw [hpt, hf] at hpre
    simp only [if_true, if_false, Bool.false_eq_true, Bool.true_eq_false,
      ite_false, ite_true] at hpre
  -- case pt = false, featured = false (both changed)
  case false.false =>
    have h1 : (cdel (cdel c ("properties_type_" ++ old.property_type))
        "featured_properties").erroring = false := by
      rw [cdel_erroring, cdel_erroring]; exact herr
    obtain ⟨he, hall, hts, htn, hpk, hmono, hfeat⟩ := post_phase_facts _ inst h1
    refine ⟨_, ?_, he, hall, hts, htn, hpk, ?_, ?_⟩
    · simp only [save_property, hpre, except_bind_ok,
        invalidate_cache_on_save_eq _ inst h1, except_bind_ok, List.map_cons,
        List.map_nil, List.cons_append, List.nil_append, List.map_append]
      simp
    · intro _
      exact hmono _ (lookup_cdel_none _ _ _ (lookup_cdel_self _ _))
    · intro _
      exact hmono _ (lookup_cdel_self _ _)
  -- case pt = false, featured unchanged
  case false.true =>
    have h1 : (cdel c ("properties_type_" ++ old.property_type)).erroring
        = false := by rw [cdel_erroring]; exact herr
    obtain ⟨he, hall, hts, htn, hpk, hmono, hfeat⟩ := post_phase_facts _ inst h1
    refine ⟨_, ?_, he, hall, hts, htn, hpk, ?_, ?_⟩
    · simp only [save_property, hpre, except_bind_ok,
        invalidate_cache_on_save_eq _ inst h1, except_bind_ok, List.map_cons,
        List.map_nil, List.cons_append, List.nil_append, List.map_append]
      simp
    · intro _
      exact hmono _ (lookup_cdel_self _ _)
    · intro hor
      rcases hor with hne | hft
      · exact absurd (by simpa using hf) hne
      · exact hfeat hft
  -- case pt unchanged, featured = false (flag changed)
  case true.false =>
    have h1 : (cdel c "featured_properties").erroring = false := by
      rw [cdel_erroring]; exact herr
    obtain ⟨he, hall, hts, htn, hpk, hmono, hfeat⟩ := post_phase_facts _ inst h1
    refine ⟨_, ?_, he, hall, hts, htn, hpk, ?_, ?_⟩
    · simp only [save_property, hpre, except_bind_ok,
        invalidate_cache_on_save_eq _ inst h1, except_bind_ok, List.map_cons,
        List.map_nil, List.cons_append, List.nil_append, List.map_append]
      simp
    · intro hne
      exact absurd (by simpa using hpt) hne
    · intro _
      exact hmono _ (lookup_cdel_self _ _)
  -- case nothing changed in the diffed fields
  case true.true =>
    obtain ⟨he, hall, hts, htn, hpk, hmono, hfeat⟩ := post_phase_facts c inst herr
    refine ⟨_, ?_, he, hall, hts, htn, hpk, ?_, ?_⟩
    · simp only [save_property, hpre, except_bind_ok,
        invalidate_cache_on_save_eq c inst herr, except_bind_ok, List.map_cons,
        List.map_nil, List.cons_append, List.nil_append, List.map_append]
      simp
    · intro hne
      exact absurd (by simpa using hpt) hne
    · intro hor
      rcases hor with hne | hft
      · exact absurd (by simpa using hf) hne
      · exact hfeat hft

/-- C3.  Update invalidation key set: after an update-save returns,
`all_properties`, `all_properties_timestamp`, `properties_type_{new}` and
`property_{id}` are absent; `properties_type_{old}` is also absent when the
discriminator changed, and `featured_properties` is absent when the featured
flag changed or the new state is featured. -/
theorem c3_update_invalidation (db : List Property) (c : Cache)
    (inst old : Property) (herr : c.erroring = false)
    (hold : db.find? (fun p => p.id == inst.id) = some old) :
    ∃ db2 c2 tr, save_property db c inst = Except.ok (db2, c2, tr) ∧
      cache_lookup c2 "all_properties" = none ∧
      cache_lookup c2 "all_properties_timestamp" = none ∧
      cache_lookup c2 ("properties_type_" ++ inst.property_type) = none ∧
      cache_lookup c2 ("property_" ++ toString inst.id) = none ∧
      (old.property_type ≠ inst.property_type →
        cache_lookup c2 ("properties_type_" ++ old.property_type) = none) ∧
      ((old.featured ≠ inst.featured ∨ inst.featured = true) →
        cache_lookup c2 "featured_properties" = none) := by
  obtain ⟨c2, hsave, _, h1, h2, h3, h4, h5, h6⟩ :=
    save_property_spec db c inst old herr hold
  exact ⟨_, c2, _, hsave, h1, h2, h3, h4, h5, h6⟩

/-- Witness for C3: an update changing the discriminator from apartment to
condo and setting the featured flag, on a store holding the old row. -/
theorem c3_witness :
    ∃ db2 c2 tr, save_property [⟨1, "t", "l", "apartment", true, false, 0⟩]
        ⟨[], false⟩ ⟨1, "t", "l", "condo", true, true, 0⟩
        = Except.ok (db2, c2, tr) ∧
      cache_lookup c2 "all_properties" = none ∧
      cache_lookup c2 "all_properties_timestamp" = none ∧
      cache_lookup c2 ("properties_type_" ++ Property.property_type
        ⟨1, "t", "l", "condo", true, true, 0⟩) = none ∧
      cache_lookup c2 ("property_" ++ toString (Property.id
        ⟨1, "t", "l", "condo", true, true, 0⟩)) = none ∧
      (Property.property_type ⟨1, "t", "l", "apartment", true, false, 0⟩
          ≠ Property.property_type ⟨1, "t", "l", "condo", true, true, 0⟩ →
        cache_lookup c2 ("properties_type_" ++ Property.property_type
          ⟨1, "t", "l", "apartment", true, false, 0⟩) = none) ∧
      ((Property.featured ⟨1, "t", "l", "apartment", true, false, 0⟩
          ≠ Property.featured ⟨1, "t", "l", "condo", true, true, 0⟩ ∨
        Property.featured ⟨1, "t", "l", "condo", true, true, 0⟩ = true) →
        cache_lookup c2 "featured_properties" = none) :=
  c3_update_invalidation [⟨1, "t", "l", "apartment", true, false, 0⟩]
    ⟨[], false⟩ ⟨1, "t", "l", "condo", true, true, 0⟩
    ⟨1, "t", "l", "apartment", true, false, 0⟩ rfl rfl

/-- Counterexample to C4 as stated: in an update changing the discriminator,
the deletion of the old type's list key is issued by the `pre_save` handler,
before the database commit, so not every cache deletion happens after the
mutation has committed. -/
theorem c4_counterexample :
    save_property [⟨1, "t", "l", "apartment", true, false, 0⟩]
        ⟨[⟨"properties_type_apartment",
            CVal.qs [⟨1, "t", "l", "apartment", true, false, 0⟩], 1800⟩],
         false⟩
        ⟨1, "t", "l", "condo", true, false, 0⟩
      = Except.ok ([⟨1, "t", "l", "condo", true, false, 0⟩], ⟨[], false⟩,
          [Ev.del "properties_type_apartment", Ev.commit,
           Ev.del "all_properties", Ev.del "all_properties_timestamp",
           Ev.del "properties_type_condo", Ev.del "property_1"]) ∧
    dels_only_after_commit
        [Ev.del "properties_type_apartment", Ev.commit,
         Ev.del "all_properties", Ev.del "all_properties_timestamp",
         Ev.del "properties_type_condo", Ev.del "property_1"] = false := by
  exact ⟨rfl, rfl⟩

/-- C4 amended.  The differential deletions (the old discriminator's list key
when the discriminator changed, `featured_properties` when the flag changed)
are issued by the pre-mutation capture phase, before the commit; the
remaining deletions (`all_properties`, `all_properties_timestamp`,
`properties_type_{new}`, `featured_properties` when the new state is
featured, and `property_{id}`) are issued after the commit; every deletion is
a precise single-key delete of the computed key, never a pattern scan and
never the generic no-id key set. -/
theorem c4_amended_invalidation_timing (db : List Property) (c : Cache)
    (inst old : Property) (herr : c.erroring = false)
    (hold : db.find? (fun p => p.id == inst.id) = some old) :
    ∃ c2, save_property db c inst = Except.ok (db_update db inst, c2,
      ((if old.property_type == inst.property_type then ([] : List Ev)
        else [Ev.del ("properties_type_" ++ old.property_type)]) ++
       (if old.featured == inst.featured then ([] : List Ev)
        else [Ev.del "featured_properties"]) ++
       Ev.commit :: ((save_keys inst).map Ev.del ++
         [Ev.del ("property_" ++ toString inst.id)]))) := by
  obtain ⟨c2, hsave, _⟩ := save_property_spec db c inst old herr hold
  exact ⟨c2, hsave⟩

/-- Witness for the amended C4: a featured-flag-only update. -/
theorem c4_amended_witness :
    ∃ c2, save_property [⟨2, "t", "l", "villa", true, false, 5⟩] ⟨[], false⟩
        ⟨2, "t", "l", "villa", true, true, 5⟩
      = Except.ok (db_update [⟨2, "t", "l", "villa", true, false, 5⟩]
          ⟨2, "t", "l", "villa", true, true, 5⟩, c2,
        ((if Property.property_type ⟨2, "t", "l", "villa", true, false, 5⟩
              == Property.property_type ⟨2, "t", "l", "villa", true, true, 5⟩
          then ([] : List Ev)
          else [Ev.del ("properties_type_" ++ Property.property_type
            ⟨2, "t", "l", "villa", true, false, 5⟩)]) ++
         (if Property.featured ⟨2, "t", "l", "villa", true, false, 5⟩
              == Property.featured ⟨2, "t", "l", "villa", true, true, 5⟩
          then ([] : List Ev) else [Ev.del "featured_properties"]) ++
         Ev.commit :: ((save_keys ⟨2, "t", "l", "villa", true, true, 5⟩).map
            Ev.del ++
          [Ev.del ("property_" ++ toString (Property.id
            ⟨2, "t", "l", "villa", true, true, 5⟩))]))) :=
  c4_amended_invalidation_timing [⟨2, "t", "l", "villa", true, false, 5⟩]
    ⟨[], false⟩ ⟨2, "t", "l", "villa", true, true, 5⟩
    ⟨2, "t", "l", "villa", true, false, 5⟩ rfl rfl

/-- Counterexample to C1 as stated: with an always-erroring cache backend the
read operations raise to the caller instead of returning the repository data
(the store holds the requested property, yet the calls return errors). -/
theorem c1_counterexample :
    get_property_by_id [⟨1, "t", "l", "house", true, false, 0⟩] ⟨[], true⟩ 1
        = Except.error PyErr.cacheError ∧
    get_cached_properties_by_type [⟨1, "t", "l", "house", true, false, 0⟩]
        ⟨[], true⟩ "house" false = Except.error PyErr.cacheError ∧
    get_all_properties [⟨1, "t", "l", "house", true, false, 0⟩] ⟨[], true⟩ 0
        = Except.error PyErr.nameError :=
  ⟨rfl, rfl, rfl⟩

/-- C1 amended.  Reads are fail-closed, not fail-open: settings.py configures
`IGNORE_EXCEPTIONS: False` and no read path wraps its cache calls in a
handler, so when every cache-backend call errors, `get_property_by_id` and
`get_cached_properties_by_type` propagate the cache error to the caller
instead of falling through to the store, and `get_all_properties` raises
`NameError` unconditionally. -/
theorem c1_amended_fail_closed (db : List Property) (c : Cache) (pid : Nat)
    (ptype : String) (fr : Bool) (now : Nat) (herr : c.erroring = true) :
    get_property_by_id db c pid = Except.error PyErr.cacheError ∧
    get_cached_properties_by_type db c ptype fr = Except.error PyErr.cacheError ∧
    get_all_properties db c now = Except.error PyErr.nameError := by
  refine ⟨?_, ?_, rfl⟩
  · simp [get_property_by_id, cache_get, herr, except_bind_err]
  · cases fr
    · simp [get_cached_properties_by_type, cache_get, herr, except_bind_ok,
        except_bind_err]
    · simp [get_cached_properties_by_type, cache_delete, herr, except_bind_ok,
        except_bind_err]

/-- Witness for the amended C1 at a concrete erroring backend. -/
theorem c1_amended_witness :
    get_property_by_id [] ⟨[], true⟩ 3 = Except.error PyErr.cacheError ∧
    get_cached_properties_by_type [] ⟨[], true⟩ "condo" true
        = Except.error PyErr.cacheError ∧
    get_all_properties [] ⟨[], true⟩ 9 = Except.error PyErr.nameError :=
  c1_amended_fail_closed [] ⟨[], true⟩ 3 "condo" true 9 rfl

/-- C2 (code bug).  `def get_all_properties():` takes no parameter yet its
body reads `force_refresh` at utils.py:24; the name is bound neither as a
parameter nor at module scope, so every call raises `NameError` before
touching the cache or the store — the documented fetchAll contract is
unreachable. -/
theorem c2_fetch_all_name_error (db : List Property) (c : Cache) (now : Nat) :
    get_all_properties db c now = Except.error PyErr.nameError := rfl

/-- Counterexample to C9 as stated: the bulk pattern invalidation issues the
blocking full-keyspace KEYS command, not a cursor-based SCAN. -/
theorem c9_counterexample :
    invalidate_all_property_caches
        ["property_listings:property_1", "sessions:s1"]
      = (1, ["sessions:s1"],
         [RedisOp.keysCmd "property_listings:*property*",
          RedisOp.delCmd ["property_listings:property_1"]]) ∧
    uses_cursor_scan_only
        [RedisOp.keysCmd "property_listings:*property*",
         RedisOp.delCmd ["property_listings:property_1"]] = false := by
  exact ⟨rfl, rfl⟩

theorem scan_loop_all_scan (ks : List String) (pat : String) (cnt : Nat) :
    ∀ fuel cursor, ((scan_loop ks pat cursor cnt fuel).2).all
      (fun op => match op with
        | RedisOp.scanCmd _ _ _ => true
        | _ => false) = true := by
  intro fuel
  induction fuel with
  | zero => intro cursor; rfl
  | succ f ih =>
      intro cursor
      by_cases h : (scan_step ks pat cursor cnt).1 == 0
      · simp [scan_loop, h]
      · simp [scan_loop, h, ih]

/-- C9 amended.  On every keyspace, `invalidate_all_property_caches` issues
the blocking KEYS command for `property_listings:*property*` (followed only
by a bulk delete) and never a SCAN page; the cursor-based bounded-batch SCAN
protocol is used only by the metrics key-analysis loop, whose operations are
exclusively SCAN pages. -/
theorem c9_amended_bulk_uses_keys (ks : List String) :
    ((invalidate_all_property_caches ks).2.2).any
        (fun op => op == RedisOp.keysCmd "property_listings:*property*")
      = true ∧
    uses_cursor_scan_only (invalidate_all_property_caches ks).2.2 = false ∧
    ((invalidate_all_property_caches ks).2.2).all
        (fun op => match op with
          | RedisOp.scanCmd _ _ _ => false
          | _ => true) = true ∧
    ((scan_property_keys ks).2).all
        (fun op => match op with
          | RedisOp.scanCmd _ _ _ => true
          | _ => false) = true := by
  refine ⟨?_, ?_, ?_, scan_loop_all_scan ks "*property*" 100 (ks.length + 1) 0⟩
  all_goals
    by_cases hemp : (redis_keys ks "property_listings:*property*").isEmpty <;>
      simp [invalidate_all_property_caches, hemp, uses_cursor_scan_only]

theorem round2_int (n : ℤ) : round2 ((n : ℚ)) = (n : ℚ) := by
  unfold round2 round_half_even
  have h1 : ((n : ℚ) * 100) = ((n * 100 : ℤ) : ℚ) := by push_cast; ring
  rw [h1, Int.floor_intCast]
  simp only [sub_self]
  norm_num

theorem metrics_memory_percent_9_10 :
    (get_redis_cache_metrics (some ⟨0, 0, 9, 10, 0, 0⟩)).memory_usage_percent
      = 90 := by
  have h90 : memory_usage_percent_of 9 10 = ((90 : ℤ) : ℚ) := by
    unfold memory_usage_percent_of
    norm_num
  simp only [get_redis_cache_metrics, h90, round2_int]
  norm_num

/-- Counterexample to C7 as stated: at exactly 90% memory usage the code
classifies HIGH (the comparison at utils.py:391 is strict), not CRITICAL as
the claim's "CRITICAL at 90% or above" requires. -/
theorem c7_counterexample :
    (get_redis_cache_metrics (some ⟨0, 0, 9, 10, 0, 0⟩)).memory_usage_percent
        = 90 ∧
    memory_status_of
        (get_redis_cache_metrics (some ⟨0, 0, 9, 10, 0, 0⟩)).memory_usage_percent
      ≠ "CRITICAL" := by
  refine ⟨metrics_memory_percent_9_10, ?_⟩
  rw [metrics_memory_percent_9_10, memory_status_of,
    if_neg (by norm_num : ¬ (90 : ℚ) > 90), if_pos (by norm_num : (90 : ℚ) > 70)]
  decide

/-- C7 amended.  hitRatio is hits/(hits+misses)*100 (0 with no operations);
memoryUsagePercent is used/max*100 (0 with no max); the hit-ratio
classification is POOR below 50, FAIR from 50 to below 80 and EXCELLENT at 80
or above; the memory classification is HEALTHY at or below 70%, HIGH above
70% up to and including 90%, and CRITICAL strictly above 90%; with hits=80
and misses=20 the stored hit ratio is 80 and classifies EXCELLENT. -/
theorem c7_amended_metrics (r m : ℚ) (h mi u M : ℕ) :
    (h + mi = 0 → hit_ratio_of h mi = 0) ∧
    (0 < h + mi → hit_ratio_of h mi * ((h : ℚ) + (mi : ℚ)) = (h : ℚ) * 100) ∧
    (M = 0 → memory_usage_percent_of u M = 0) ∧
    (0 < M → memory_usage_percent_of u M * (M : ℚ) = (u : ℚ) * 100) ∧
    (r < 50 → hit_ratio_status_of r = "POOR") ∧
    (50 ≤ r → r < 80 → hit_ratio_status_of r = "FAIR") ∧
    (80 ≤ r → hit_ratio_status_of r = "EXCELLENT") ∧
    (m ≤ 70 → memory_status_of m = "HEALTHY") ∧
    (70 < m → m ≤ 90 → memory_status_of m = "HIGH") ∧
    (90 < m → memory_status_of m = "CRITICAL") ∧
    ((get_redis_cache_metrics (some ⟨80, 20, 0, 0, 0, 0⟩)).hit_ratio_percent
        = 80 ∧
      hit_ratio_status_of
        (get_redis_cache_metrics (some ⟨80, 20, 0, 0, 0, 0⟩)).hit_ratio_percent
          = "EXCELLENT") := by
  have hsc : (get_redis_cache_metrics
      (some ⟨80, 20, 0, 0, 0, 0⟩)).hit_ratio_percent = 80 := by
    have h80 : hit_ratio_of 80 20 = ((80 : ℤ) : ℚ) := by
      unfold hit_ratio_of
      norm_num
    simp only [get_redis_cache_metrics, h80, round2_int]
    norm_num
  have hsc2 : hit_ratio_status_of (80 : ℚ) = "EXCELLENT" := by
    rw [hit_ratio_status_of, if_neg (by norm_num : ¬ (80 : ℚ) < 50),
      if_neg (by norm_num : ¬ (80 : ℚ) < 80)]
  refine ⟨?_, ?_, ?_, ?_, ?_, ?_, ?_, ?_, ?_, ?_, hsc, by rw [hsc]; exact hsc2⟩
  · intro h0; simp [hit_ratio_of, h0]
  · intro hpos
    have hne : ((h : ℚ) + (mi : ℚ)) ≠ 0 := by
      have hq : (0 : ℚ) < (h : ℚ) + (mi : ℚ) := by exact_mod_cast hpos
      exact ne_of_gt hq
    rw [hit_ratio_of, if_pos hpos]
    field_simp
  · intro h0; simp [memory_usage_percent_of, h0]
  · intro hpos
    have hne : ((M : ℚ)) ≠ 0 := by
      have hq : (0 : ℚ) < (M : ℚ) := by exact_mod_cast hpos
      exact ne_of_gt hq
    rw [memory_usage_percent_of, if_pos hpos]
    field_simp
  · intro hr; simp [hit_ratio_status_of, hr]
  · intro h50 h80
    rw [hit_ratio_status_of, if_neg (not_lt.mpr h50), if_pos h80]
  · intro h80
    have h50 : ¬ r < 50 := not_lt.mpr (le_trans (by norm_num) h80)
    rw [hit_ratio_status_of, if_neg h50, if_neg (not_lt.mpr h80)]
  · intro h70
    have h90 : ¬ m > 90 := not_lt.mpr (le_trans h70 (by norm_num))
    rw [memory_status_of, if_neg h90, if_neg (not_lt.mpr h70)]
  · intro h70 h90
    rw [memory_status_of, if_neg (not_lt.mpr h90), if_pos h70]
  · intro h90; rw [memory_status_of, if_pos h90]

/-- Witness for the amended C7 at concrete ratios and percentages. -/
theorem c7_amended_witness :
    hit_ratio_status_of 85 = "EXCELLENT" ∧
    hit_ratio_status_of 60 = "FAIR" ∧
    hit_ratio_status_of 30 = "POOR" ∧
    memory_status_of 60 = "HEALTHY" ∧
    memory_status_of 75 = "HIGH" ∧
    memory_status_of 95 = "CRITICAL" ∧
    hit_ratio_of 80 20 * (((80 : ℕ) : ℚ) + ((20 : ℕ) : ℚ))
      = ((80 : ℕ) : ℚ) * 100 := by
  obtain ⟨-, hfor, -, -, -, -, hexc, -, -, -, -⟩ :=
    c7_amended_metrics 85 0 80 20 0 0
  obtain ⟨-, -, -, -, -, hfair, -, hheal, -, -, -⟩ :=
    c7_amended_metrics 60 60 0 0 0 0
  obtain ⟨-, -, -, -, hpoor, -, -, -, hhigh, -, -⟩ :=
    c7_amended_metrics 30 75 0 0 0 0
  obtain ⟨-, -, -, -, -, -, -, -, -, hcrit, -⟩ :=
    c7_amended_metrics 0 95 0 0 0 0
  exact ⟨hexc (by norm_num), hfair (by norm_num) (by norm_num),
    hpoor (by norm_num), hheal (by norm_num),
    hhigh (by norm_num) (by norm_num), hcrit (by norm_num),
    hfor (by norm_num)⟩

theorem overall_of_crit (cs : List String) (h : "CRITICAL" ∈ cs) :
    overall_of cs = "CRITICAL" := by
  have : cs.any (fun s => s == "CRITICAL") = true :=
    List.any_eq_true.mpr ⟨"CRITICAL", h, by simp⟩
  simp [overall_of, this]

theorem overall_of_warn (cs : List String) (hc : "CRITICAL" ∉ cs)
    (hw : "WARNING" ∈ cs) : overall_of cs = "WARNING" := by
  have h1 : cs.any (fun s => s == "CRITICAL") = false := by
    rw [List.any_eq_false]
    intro x hx hbeq
    exact hc (by simpa using (eq_of_beq hbeq) ▸ hx)
  have h2 : cs.any (fun s => s == "WARNING") = true :=
    List.any_eq_true.mpr ⟨"WARNING", hw, by simp⟩
  simp [overall_of, h1, h2]

theorem overall_of_healthy (cs : List String) (hc : "CRITICAL" ∉ cs)
    (hw : "WARNING" ∉ cs) : overall_of cs = "HEALTHY" := by
  have h1 : cs.any (fun s => s == "CRITICAL") = false := by
    rw [List.any_eq_false]
    intro x hx hbeq
    exact hc (by simpa using (eq_of_beq hbeq) ▸ hx)
  have h2 : cs.any (fun s => s == "WARNING") = false := by
    rw [List.any_eq_false]
    intro x hx hbeq
    exact hw (by simpa using (eq_of_beq hbeq) ▸ hx)
  simp [overall_of, h1, h2]

theorem overall_of_ne_unreachable (cs : List String) :
    overall_of cs ≠ "UNREACHABLE" := by
  by_cases h1 : cs.any (fun s => s == "CRITICAL") <;>
    by_cases h2 : cs.any (fun s => s == "WARNING") <;>
      simp [overall_of, h1, h2]

/-- C8.  Health check (utils.py:442-525): connectivity is HEALTHY below 10 ms
and SLOW at or above; above 100 ms the connectivity message downgrades to
"Redis response is slow" while the backend is still reported reachable
(status SLOW, not UNREACHABLE); when metrics are readable, the overall status
aggregates the three component statuses worst-first (CRITICAL over WARNING
over HEALTHY); a failed liveness probe is caught and reported as overall
UNREACHABLE; and the function always returns a status-tagged report, never
propagating a backend error. -/
theorem c8_health_check (b : HealthBackend) (t : ℚ) (i : RedisInfo) :
    (b.ping_ms = none →
      (get_cache_health_check b).overall_status = "UNREACHABLE" ∧
      (get_cache_health_check b).status = "error") ∧
    (b.ping_ms = some t → t < 10 →
      (get_cache_health_check b).conn_status = some "HEALTHY") ∧
    (b.ping_ms = some t → 10 ≤ t →
      (get_cache_health_check b).conn_status = some "SLOW") ∧
    (b.ping_ms = some t → 100 < t →
      (get_cache_health_check b).conn_message = some "Redis response is slow" ∧
      (get_cache_health_check b).conn_status = some "SLOW" ∧
      (get_cache_health_check b).overall_status ≠ "UNREACHABLE") ∧
    (b.ping_ms = some t → b.info = some i →
      (get_cache_health_check b).overall_status = overall_of
        [hit_component_status
            (get_redis_cache_metrics (some i)).hit_ratio_percent,
         mem_component_status
            (get_redis_cache_metrics (some i)).memory_usage_percent,
         conn_component_status ((i.connected_clients : ℚ)
            / ((max 1 i.maxclients : Nat) : ℚ) * 100)]) ∧
    (∀ cs, "CRITICAL" ∈ cs → overall_of cs = "CRITICAL") ∧
    (∀ cs, "CRITICAL" ∉ cs → "WARNING" ∈ cs → overall_of cs = "WARNING") ∧
    (∀ cs, "CRITICAL" ∉ cs → "WARNING" ∉ cs → overall_of cs = "HEALTHY") ∧
    ((get_cache_health_check b).status = "success" ∨
      (get_cache_health_check b).status = "error") := by
  refine ⟨?_, ?_, ?_, ?_, ?_, overall_of_crit, overall_of_warn,
    overall_of_healthy, ?_⟩
  · intro hping; simp [get_cache_health_check, hping]
  · intro hping hlt
    rcases hinfo : b.info with _ | i2 <;>
      simp [get_cache_health_check, hping, hinfo, hlt]
  · intro hping hge
    rcases hinfo : b.info with _ | i2 <;>
      simp [get_cache_health_check, hping, hinfo, not_lt.mpr hge]
  · intro hping hgt
    have h100 : ¬ t < 100 := not_lt.mpr (le_of_lt hgt)
    have h10 : ¬ t < 10 := not_lt.mpr (le_trans (by norm_num) (le_of_lt hgt))
    rcases hinfo : b.info with _ | i2 <;>
      simp [get_cache_health_check, hping, hinfo, h100, h10,
        overall_of_ne_unreachable]
  · intro hping hinfo
    simp only [get_cache_health_check, hping, hinfo]
    rfl
  · rcases hping : b.ping_ms with _ | t2
    · simp [get_cache_health_check, hping]
    · rcases hinfo : b.info with _ | i2 <;>
        simp [get_cache_health_check, hping, hinfo]

/-- Witness for C8: a healthy 5 ms probe with readable counters, applied to
the aggregation facts as well. -/
theorem c8_witness :
    (HealthBackend.ping_ms ⟨some 5, some ⟨80, 20, 0, 0, 0, 0⟩⟩ = some 5 →
      (5 : ℚ) < 10 →
      (get_cache_health_check ⟨some 5, some ⟨80, 20, 0, 0, 0, 0⟩⟩).conn_status
        = some "HEALTHY") ∧
    ((get_cache_health_check ⟨none, none⟩).overall_status = "UNREACHABLE" ∧
      (get_cache_health_check ⟨none, none⟩).status = "error") ∧
    overall_of ["HEALTHY", "WARNING", "CRITICAL"] = "CRITICAL" := by
  refine ⟨(c8_health_check ⟨some 5, some ⟨80, 20, 0, 0, 0, 0⟩⟩ 5
      ⟨80, 20, 0, 0, 0, 0⟩).2.1, ?_, ?_⟩
  · exact (c8_health_check ⟨none, none⟩ 0 ⟨0, 0, 0, 0, 0, 0⟩).1 rfl
  · exact (c8_health_check ⟨none, none⟩ 0 ⟨0, 0, 0, 0, 0, 0⟩).2.2.2.2.2.1
      ["HEALTHY", "WARNING", "CRITICAL"] (by simp)

/-- C10.  Every derived percentage is computed with a nonzero denominator for
all counter inputs: the checked-division versions of the hit-ratio, memory
and client-utilization computations always return a value (never the
division-by-zero marker), and agree with the unchecked computations. -/
theorem c10_metrics_division_total (h mi u M cc mc : ℕ) :
    hit_ratio_checked h mi = some (hit_ratio_of h mi) ∧
    memory_percent_checked u M = some (memory_usage_percent_of u M) ∧
    client_util_checked cc mc = some (client_utilization_of cc mc) := by
  refine ⟨?_, ?_, ?_⟩
  · by_cases hp : h + mi > 0
    · have hne : ((h : ℚ) + (mi : ℚ)) ≠ 0 := by
        have hq : (0 : ℚ) < (h : ℚ) + (mi : ℚ) := by exact_mod_cast hp
        exact ne_of_gt hq
      simp [hit_ratio_checked, hit_ratio_of, hp, cdiv, hne]
    · simp [hit_ratio_checked, hit_ratio_of, hp]
  · by_cases hp : M > 0
    · have hne : ((M : ℚ)) ≠ 0 := by
        have hq : (0 : ℚ) < (M : ℚ) := by exact_mod_cast hp
        exact ne_of_gt hq
      simp [memory_percent_checked, memory_usage_percent_of, hp, cdiv, hne]
    · simp [memory_percent_checked, memory_usage_percent_of, hp]
  · have hpos : 0 < max 1 mc := lt_of_lt_of_le Nat.one_pos (le_max_left 1 mc)
    have hne : (((max 1 mc : Nat)) : ℚ) ≠ 0 := by
      have hq : (0 : ℚ) < ((max 1 mc : Nat) : ℚ) := by exact_mod_cast hpos
      exact ne_of_gt hq
    simp only [client_util_checked, client_utilization_of, cdiv]
    rw [if_neg hne]
    rfl

end Listings
